import Mathlib

/-!
Shallow embedding of `smart_maintenance_agent.py` (smart-Iot-maintenance-agent).

Python floats are modelled as rationals (`ℚ`); the only rounding the program
performs is `round(_, 2)`, modelled exactly by `round2` below.  Python
f-string rendering of floats is abstracted by a `Fmt` record of rendering
functions (`repr`-style and `:.2f`-style), since no verified property depends
on the digits produced.  The external Azure search client is abstracted by an
oracle `retr : String → ℕ → List RawDoc` supplying the raw search results;
`retrieve_docs` performs the field extraction and truncation the Python code
does on those results.  Python string slicing `s[:n]` and `s.strip()` are
modelled character-wise by `pySlice` and `pyStrip`.
-/

set_option maxRecDepth 8000

namespace SmartMaintenance

/-- Python string slicing `s[:n]` (by code points). -/
def pySlice (s : String) (n : ℕ) : String := ⟨s.data.take n⟩

/-- Python `s.strip()`: remove leading and trailing whitespace. -/
def pyStrip (s : String) : String :=
  ⟨((s.data.dropWhile Char.isWhitespace).reverse.dropWhile Char.isWhitespace).reverse⟩

/-- Round-half-to-even of a rational to an integer, Python's `round(x)`. -/
def roundHalfEven (x : ℚ) : ℤ :=
  if x - ⌊x⌋ < 1/2 then ⌊x⌋
  else if x - ⌊x⌋ > 1/2 then ⌊x⌋ + 1
  else if ⌊x⌋ % 2 = 0 then ⌊x⌋ else ⌊x⌋ + 1

/-- Python `round(x, 2)` on the rational model. -/
def round2 (x : ℚ) : ℚ := (roundHalfEven (x * 100) : ℚ) / 100

/-- One element of `STATE[deviceId]["history"]`:
`{"T": Temperature, "P": Pressure, "CPU": CPU_Usage, "risk": risk}`. -/
structure HistoryEntry where
  T : ℚ
  P : ℚ
  CPU : ℚ
  risk : ℚ
deriving DecidableEq, Repr

/-- One value of the `STATE` dict: `{"history": [...], "lastRisk": float}`. -/
structure DeviceRecord where
  history : List HistoryEntry
  lastRisk : ℚ
deriving DecidableEq, Repr

/-- The process-wide `STATE` dict, keyed by deviceId. -/
def Store := String → Option DeviceRecord

/-- The initial empty `STATE = {}`. -/
def emptyStore : Store := fun _ => none

/-- Dict assignment `STATE[deviceId] = r`. -/
def setStore (s : Store) (deviceId : String) (r : DeviceRecord) : Store :=
  fun d => if d = deviceId then some r else s d

/-- `update_state`: create the record if absent, append the new history entry,
cap the history to the last 100 entries (`[-100:]`), set `lastRisk`. -/
def update_state (s : Store) (deviceId : String)
    (Temperature Pressure CPU_Usage risk : ℚ) : Store :=
  let prev := (s deviceId).getD ⟨[], 0⟩
  let hist1 := prev.history ++ [⟨Temperature, Pressure, CPU_Usage, risk⟩]
  let hist2 := hist1.drop (hist1.length - 100)
  setStore s deviceId ⟨hist2, risk⟩

/-- `read_last_state`: `STATE.get(deviceId, {"history": [], "lastRisk": 0.0})`. -/
def read_last_state (s : Store) (deviceId : String) : DeviceRecord :=
  (s deviceId).getD ⟨[], 0⟩

/-- `compute_simple_risk`: threshold-additive risk, clamped and rounded. -/
def compute_simple_risk (T P CPU : ℚ) : ℚ :=
  let risk : ℚ :=
    (if T > 85 then 0.4 else 0) + (if P > 7.5 then 0.3 else 0) +
      (if CPU > 90 then 0.2 else 0)
  round2 (min 1.0 (max 0.0 risk))

/-- A raw record returned by the external search service; `none` models a
missing key (Python `r.get(k, default)`), and for `title`/`content`/`chunk`
an empty string behaves like a missing key under Python truthiness. -/
structure RawDoc where
  title : Option String
  content : Option String
  chunk : Option String
  source : Option String
  score : Option ℚ
deriving DecidableEq, Repr

/-- An evidence document as built by `retrieve_docs`. -/
structure Doc where
  title : String
  snippet : String
  source : String
  score : ℚ
deriving DecidableEq, Repr

/-- `retrieve_docs` applied to the raw results the search client returned:
`title`, `(content or chunk)[:500]`, `source`, `@search.score`. -/
def retrieve_docs (results : List RawDoc) : List Doc :=
  results.map fun r =>
    ⟨r.title.getD "",
     pySlice (let c := r.content.getD ""; if c = "" then r.chunk.getD "" else c) 500,
     r.source.getD "",
     r.score.getD 0.0⟩

/-- Abstract rendering of Python floats inside f-strings: `fRepr` models
plain `{x}` interpolation, `fixed2` models `{x:.2f}`. -/
structure Fmt where
  fRepr : ℚ → String
  fixed2 : ℚ → String

/-- The `ev_lines` loop of `plan_repair_workflow`: at most the first 3
documents, `title or "Doc {i}"`, snippet `[:300].strip()`, optional
bracketed source. -/
def plan_evidence_lines (evidence : List Doc) : List String :=
  (evidence.take 3).enum.map fun p =>
    let i := p.1 + 1
    let e := p.2
    let title := if e.title = "" then "Doc " ++ toString i else e.title
    let snippet := pyStrip (pySlice e.snippet 300)
    let src := e.source
    "- " ++ title ++ ": " ++ snippet ++ (if src = "" then "" else " [" ++ src ++ "]")

/-- The fixed ordered list `steps` of `plan_repair_workflow`. -/
def steps : List String :=
  ["Apply Lockout/Tagout (LOTO) per site procedure; verify zero energy state.",
   "Visually inspect housing, inlet/outlet, mounts for looseness or damage.",
   "Measure bearing temperature and vibration; compare with baseline limits.",
   "Check shaft alignment and coupling; re-align if out of tolerance.",
   "Lubricate/replace bearings per OEM spec if play/noise detected.",
   "Clear cooling passages and filters; verify ventilation/airflow.",
   "Run controlled test (10–15 min); record temp/pressure/vibration trends.",
   "Update CMMS, attach readings, and trend risk for the next 7 days."]

/-- The fixed `parts` list. -/
def parts : List String :=
  ["Bearing kit (per BOM)", "Coupling shims", "Approved grease/lubricant",
   "Cleaning kit / filters"]

/-- The fixed `safety` list. -/
def safety : List String :=
  ["LOTO enforced; arc-flash PPE as required",
   "Eye/hand protection at all times",
   "Follow confined-space rules if applicable"]

/-- `eta = 3.5 if risk >= 0.7 else 2.0`. -/
def planEta (risk : ℚ) : ℚ := if risk ≥ 0.7 then 3.5 else 2.0

/-- The fixed `rollback` text. -/
def rollback : String :=
  "Restore original alignment and settings; reassemble with prior shims; " ++
  "remove LOTO only after verification and sign-off."

/-- The numbered step lines `f"{i+1}. {s}" for i, s in enumerate(steps)`. -/
def step_lines : List String :=
  steps.enum.map fun p => toString (p.1 + 1) ++ ". " ++ p.2

/-- The `lines` list assembled by `plan_repair_workflow` before joining. -/
def plan_lines (fmt : Fmt) (deviceId : String) (risk : ℚ)
    (failure_modes : List String) (evidence : List Doc) : List String :=
  ["# Repair Plan for " ++ deviceId,
   "Risk: " ++ fmt.fRepr risk ++ " | Failure modes: " ++
     String.intercalate ", " failure_modes,
   "## Evidence (summary)"]
  ++ (match plan_evidence_lines evidence with
      | [] => ["- No external evidence referenced in this run."]
      | ls => ls)
  ++ ["## Steps"] ++ step_lines
  ++ ["## Parts/Materials"] ++ parts.map (fun p => "- " ++ p)
  ++ ["## Safety"] ++ safety.map (fun s => "- " ++ s)
  ++ ["## ETA (hours)\n" ++ fmt.fRepr (planEta risk),
      "## Rollback\n" ++ rollback]

/-- `plan_repair_workflow`: the joined plan text. -/
def plan_repair_workflow (fmt : Fmt) (deviceId : String) (risk : ℚ)
    (failure_modes : List String) (evidence : List Doc) : String :=
  String.intercalate "\n" (plan_lines fmt deviceId risk failure_modes evidence)

/-- The dict returned by `send_alert`. -/
structure AlertRes where
  alert : String
  deviceId : String
  risk : ℚ
deriving DecidableEq, Repr

/-- `send_alert`: `"TRIGGERED" if risk >= 0.7 else "NO_ALERT"`. -/
def send_alert (deviceId : String) (risk : ℚ) : AlertRes :=
  ⟨if risk ≥ 0.7 then "TRIGGERED" else "NO_ALERT", deviceId, risk⟩

/-- The dict returned by `predict_failure_risk`. -/
structure Pred where
  deviceId : String
  risk : ℚ
  rationale : String
  failure_modes : List String
  history_length : ℕ
deriving DecidableEq, Repr

/-- `predict_failure_risk`: score, read previous state, record, rationale. -/
def predict_failure_risk (fmt : Fmt) (s : Store) (deviceId : String)
    (Temperature Pressure CPU_Usage : ℚ) : Store × Pred :=
  let risk := compute_simple_risk Temperature Pressure CPU_Usage
  let prev := read_last_state s deviceId
  let s2 := update_state s deviceId Temperature Pressure CPU_Usage risk
  let rationale :=
    "Heuristic thresholds → Prev risk=" ++ fmt.fixed2 prev.lastRisk ++
    ", Now=" ++ fmt.fixed2 risk ++ " (T=" ++ fmt.fRepr Temperature ++
    "°C, P=" ++ fmt.fRepr Pressure ++ ", CPU=" ++ fmt.fRepr CPU_Usage ++ "%)."
  (s2, ⟨deviceId, risk, rationale,
        ["overheating", "bearing wear", "misalignment"],
        (read_last_state s2 deviceId).history.length⟩)

/-- The inbound event dict; `none` models a missing key. -/
structure Event where
  deviceId : Option String
  Temperature : Option ℚ
  Pressure : Option ℚ
  CPU_Usage : Option ℚ
  topK : Option ℕ
  alert_threshold : Option ℚ
deriving DecidableEq, Repr

/-- The retrieval query built by the coordinator:
`f"{' '.join(failure_modes)} pump maintenance pressure:{P} temperature:{T}"`. -/
def build_query (fmt : Fmt) (failure_modes : List String)
    (Pressure Temperature : ℚ) : String :=
  String.intercalate " " failure_modes ++ " pump maintenance pressure:" ++
    fmt.fRepr Pressure ++ " temperature:" ++ fmt.fRepr Temperature

/-- The evidence-rendering loop inside `run_coordinator`'s report assembly:
`f"- {e['title']}: {e['snippet']}{src}"` for every document. -/
def coord_evidence_lines (evidence : List Doc) : List String :=
  evidence.map fun e =>
    let src := if e.source = "" then "" else " [" ++ e.source ++ "]"
    "- " ++ e.title ++ ": " ++ e.snippet ++ src

/-- The value a successful `run_coordinator` returns, plus the intermediate
values the claims talk about. -/
structure RunResult where
  risk : ℚ
  rationale : String
  failure_modes : List String
  evidence : List Doc
  plan_text : String
  alert : AlertRes
  report : String
deriving DecidableEq, Repr

/-- `run_coordinator`: the five-stage pipeline.  The store is threaded
explicitly; a missing required event key yields `Except.error` (Python
`KeyError`) with the store as it was at the raise point. -/
def run_coordinator (fmt : Fmt) (retr : String → ℕ → List RawDoc)
    (event : Event) (s : Store) : Store × Except String RunResult :=
  match event.deviceId with
  | none => (s, Except.error "KeyError: deviceId")
  | some deviceId =>
    let thr := event.alert_threshold.getD 0.7
    let topK := event.topK.getD 3
    match event.Temperature with
    | none => (s, Except.error "KeyError: Temperature")
    | some Temperature =>
      match event.Pressure with
      | none => (s, Except.error "KeyError: Pressure")
      | some Pressure =>
        match event.CPU_Usage with
        | none => (s, Except.error "KeyError: CPU_Usage")
        | some CPU_Usage =>
          let sp := predict_failure_risk fmt s deviceId Temperature Pressure CPU_Usage
          let s2 := sp.1
          let pred := sp.2
          let evidence :=
            if pred.risk ≥ thr then
              retrieve_docs (retr (build_query fmt pred.failure_modes Pressure Temperature) topK)
            else []
          let plan_text :=
            plan_repair_workflow fmt deviceId pred.risk pred.failure_modes evidence
          let alert := send_alert deviceId pred.risk
          let reportLines :=
            ["# Smart Maintenance Report — " ++ deviceId,
             "## Risk & Rationale",
             "- Risk score: **" ++ fmt.fRepr pred.risk ++ "**",
             "- Rationale: " ++ pred.rationale,
             "## Failure Modes"]
            ++ pred.failure_modes.map (fun m => "- " ++ m)
            ++ ["## Evidence (summary)"]
            ++ (match evidence with
                | [] => ["- No external evidence referenced in this run."]
                | _ => coord_evidence_lines evidence)
            ++ ["## Repair Plan", plan_text, "## Alert Status",
                "- " ++ alert.alert ++ " (threshold: " ++ fmt.fRepr thr ++ ")"]
          (s2, Except.ok
            ⟨pred.risk, pred.rationale, pred.failure_modes, evidence,
             plan_text, alert, String.intercalate "\n" reportLines⟩)

/-- The successful result of a coordinator run, if any. -/
def runRes (x : Store × Except String RunResult) : Option RunResult :=
  x.2.toOption

/-! ### Rounding lemmas -/

lemma roundHalfEven_intCast (n : ℤ) : roundHalfEven ((n : ℚ)) = n := by
  simp [roundHalfEven]

lemma round2_fix (x : ℚ) (n : ℤ) (h : x * 100 = (n : ℚ)) : round2 x = x := by
  rw [round2, h, roundHalfEven_intCast, ← h]
  field_simp

lemma roundHalfEven_nonneg (x : ℚ) (h : 0 ≤ x) : 0 ≤ roundHalfEven x := by
  unfold roundHalfEven
  have hf : (0:ℤ) ≤ ⌊x⌋ := Int.floor_nonneg.mpr h
  split_ifs <;> omega

lemma roundHalfEven_le (x : ℚ) (n : ℤ) (h : x ≤ (n : ℚ)) : roundHalfEven x ≤ n := by
  unfold roundHalfEven
  have hf : ⌊x⌋ ≤ n := by simpa using Int.floor_le_floor h
  by_cases heq : ⌊x⌋ = n
  · have hx : x - ⌊x⌋ ≤ 0 := by rw [heq]; linarith
    rw [if_pos (by linarith : x - ⌊x⌋ < 1/2)]
    omega
  · split_ifs <;> omega

lemma round2_nonneg (x : ℚ) (h : 0 ≤ x) : 0 ≤ round2 x := by
  unfold round2
  have h2 : (0:ℤ) ≤ roundHalfEven (x * 100) := roundHalfEven_nonneg _ (by positivity)
  have : (0:ℚ) ≤ (roundHalfEven (x * 100) : ℚ) := by exact_mod_cast h2
  positivity

lemma round2_le_one (x : ℚ) (h : x ≤ 1) : round2 x ≤ 1 := by
  unfold round2
  have h2 : roundHalfEven (x * 100) ≤ 100 := roundHalfEven_le _ 100 (by push_cast; linarith)
  rw [div_le_one (by norm_num)]
  exact_mod_cast h2

/-! ### Evaluating the risk scorer at concrete readings -/

lemma compute_simple_risk_eq (T P CPU : ℚ) :
    compute_simple_risk T P CPU =
      round2 (min 1.0 (max 0.0 ((if T > 85 then (0.4:ℚ) else 0) +
        (if P > 7.5 then 0.3 else 0) + (if CPU > 90 then 0.2 else 0)))) := rfl

lemma csr_val (T P CPU v : ℚ) (n : ℤ)
    (hv : (if T > 85 then (0.4:ℚ) else 0) + (if P > 7.5 then 0.3 else 0) +
      (if CPU > 90 then 0.2 else 0) = v)
    (h0 : 0 ≤ v) (h1 : v ≤ 1) (hn : v * 100 = (n : ℚ)) :
    compute_simple_risk T P CPU = v := by
  rw [compute_simple_risk_eq, hv,
    (by norm_num : (1.0:ℚ) = 1), (by norm_num : (0.0:ℚ) = 0),
    max_eq_right h0, min_eq_right h1]
  exact round2_fix v n hn

lemma csr_90_0_95 : compute_simple_risk 90 0 95 = 0.6 :=
  csr_val _ _ _ _ 60 (by norm_num) (by norm_num) (by norm_num) (by norm_num)

lemma csr_85_0_0 : compute_simple_risk 85 0 0 = 0 :=
  csr_val _ _ _ _ 0 (by norm_num) (by norm_num) (by norm_num) (by norm_num)

lemma csr_8501_0_0 : compute_simple_risk 85.01 0 0 = 0.4 :=
  csr_val _ _ _ _ 40 (by norm_num) (by norm_num) (by norm_num) (by norm_num)

lemma csr_92_82_88 : compute_simple_risk 92 8.2 88 = 0.7 :=
  csr_val _ _ _ _ 70 (by norm_num) (by norm_num) (by norm_num) (by norm_num)

lemma csr_92_82_91 : compute_simple_risk 92 8.2 91 = 0.9 :=
  csr_val _ _ _ _ 90 (by norm_num) (by norm_num) (by norm_num) (by norm_num)

lemma csr_50_2_10 : compute_simple_risk 50 2 10 = 0 :=
  csr_val _ _ _ _ 0 (by norm_num) (by norm_num) (by norm_num) (by norm_num)

lemma csr_90_8_95 : compute_simple_risk 90 8 95 = 0.9 :=
  csr_val _ _ _ _ 90 (by norm_num) (by norm_num) (by norm_num) (by norm_num)

/-! ### Anatomy of a successful coordinator run

For an event carrying all its keys the run succeeds, and each observable of
the result is definitionally what the pipeline computes for it. -/

lemma run_alert_eq (fmt : Fmt) (retr : String → ℕ → List RawDoc)
    (did : String) (T P CPU : ℚ) (topK : ℕ) (thr : ℚ) (s : Store) :
    (runRes (run_coordinator fmt retr
        ⟨some did, some T, some P, some CPU, some topK, some thr⟩ s)).map
        (fun r => r.alert.alert) =
      some ((send_alert did (compute_simple_risk T P CPU)).alert) := rfl

lemma run_risk_eq (fmt : Fmt) (retr : String → ℕ → List RawDoc)
    (did : String) (T P CPU : ℚ) (topK : ℕ) (thr : ℚ) (s : Store) :
    (runRes (run_coordinator fmt retr
        ⟨some did, some T, some P, some CPU, some topK, some thr⟩ s)).map
        RunResult.risk =
      some (compute_simple_risk T P CPU) := rfl

lemma run_evidence_eq (fmt : Fmt) (retr : String → ℕ → List RawDoc)
    (did : String) (T P CPU : ℚ) (topK : ℕ) (thr : ℚ) (s : Store) :
    (runRes (run_coordinator fmt retr
        ⟨some did, some T, some P, some CPU, some topK, some thr⟩ s)).map
        RunResult.evidence =
      some (if compute_simple_risk T P CPU ≥ thr then
              retrieve_docs (retr (build_query fmt
                ["overheating", "bearing wear", "misalignment"] P T) topK)
            else []) := rfl

lemma run_plan_eq (fmt : Fmt) (retr : String → ℕ → List RawDoc)
    (did : String) (T P CPU : ℚ) (topK : ℕ) (thr : ℚ) (s : Store) :
    (runRes (run_coordinator fmt retr
        ⟨some did, some T, some P, some CPU, some topK, some thr⟩ s)).map
        RunResult.plan_text =
      some (plan_repair_workflow fmt did (compute_simple_risk T P CPU)
              ["overheating", "bearing wear", "misalignment"]
              (if compute_simple_risk T P CPU ≥ thr then
                retrieve_docs (retr (build_query fmt
                  ["overheating", "bearing wear", "misalignment"] P T) topK)
              else [])) := rfl

/-! ### Device-record invariant machinery -/

/-- The Device Record invariant: history capped at 100, `lastRisk` tracking
the risk of the last history entry (0 when the history is empty). -/
def DevInv (r : DeviceRecord) : Prop :=
  r.history.length ≤ 100 ∧
    r.lastRisk = (match r.history.getLast? with
                  | some e => e.risk
                  | none => 0)

/-- Every record present in the store satisfies `DevInv`. -/
def StoreInv (s : Store) : Prop := ∀ d r, s d = some r → DevInv r

lemma getLast?_drop_of_lt {α : Type} :
    ∀ (l : List α) (n : ℕ), n < l.length → (l.drop n).getLast? = l.getLast? := by
  intro l
  induction l with
  | nil => intro n h; simp at h
  | cons a l ih =>
    intro n h
    cases n with
    | zero => rfl
    | succ n =>
      have hlt : n < l.length := by simpa using h
      rw [List.drop_succ_cons, ih n hlt]
      cases l with
      | nil => simp at hlt
      | cons b l2 => simp

lemma read_update_same_history (s : Store) (d : String) (T P CPU risk : ℚ) :
    (read_last_state (update_state s d T P CPU risk) d).history =
      ((read_last_state s d).history ++ [(⟨T, P, CPU, risk⟩ : HistoryEntry)]).drop
        (((read_last_state s d).history ++ [(⟨T, P, CPU, risk⟩ : HistoryEntry)]).length - 100) := by
  simp [update_state, setStore, read_last_state]

lemma read_update_same_lastRisk (s : Store) (d : String) (T P CPU risk : ℚ) :
    (read_last_state (update_state s d T P CPU risk) d).lastRisk = risk := by
  simp [update_state, setStore, read_last_state]

lemma update_state_other (s : Store) (d d2 : String) (T P CPU risk : ℚ)
    (h : d2 ≠ d) : update_state s d T P CPU risk d2 = s d2 := by
  simp [update_state, setStore, h]

lemma DevInv_update (s : Store) (d : String) (T P CPU risk : ℚ) :
    DevInv (read_last_state (update_state s d T P CPU risk) d) := by
  set hist1 := (read_last_state s d).history ++ [(⟨T, P, CPU, risk⟩ : HistoryEntry)] with hh
  have hlen : hist1.length - 100 < hist1.length := by
    rw [hh]
    simp
    omega
  have hLast : ((read_last_state (update_state s d T P CPU risk) d).history).getLast? =
      some (⟨T, P, CPU, risk⟩ : HistoryEntry) := by
    rw [read_update_same_history, ← hh, getLast?_drop_of_lt _ _ hlen, hh,
      List.getLast?_concat]
  constructor
  · rw [read_update_same_history, ← hh, List.length_drop]
    omega
  · rw [hLast, read_update_same_lastRisk]

lemma StoreInv_empty : StoreInv emptyStore := by
  intro d r h
  simp [emptyStore] at h

lemma StoreInv_update (s : Store) (hs : StoreInv s) (d : String)
    (T P CPU risk : ℚ) : StoreInv (update_state s d T P CPU risk) := by
  intro d2 r2 h2
  by_cases hd : d2 = d
  · subst hd
    have hr : read_last_state (update_state s d2 T P CPU risk) d2 = r2 := by
      simp [read_last_state, h2]
    rw [← hr]
    exact DevInv_update s d2 T P CPU risk
  · exact hs d2 r2 (by rw [← update_state_other s d d2 T P CPU risk hd]; exact h2)

lemma DevInv_read (s : Store) (hs : StoreInv s) (d : String) :
    DevInv (read_last_state s d) := by
  unfold read_last_state
  cases h : s d with
  | none => exact ⟨by simp, by simp⟩
  | some r => simpa using hs d r h

/-- Applying `update_state` once per entry of a list, for one device. -/
def recordMany (s : Store) (d : String) (es : List HistoryEntry) : Store :=
  es.foldl (fun acc e => update_state acc d e.T e.P e.CPU e.risk) s

lemma drop_cap_append {α : Type} (es : List α) (e : α) :
    (es.drop (es.length - 100) ++ [e]).drop
        ((es.drop (es.length - 100) ++ [e]).length - 100) =
      (es ++ [e]).drop ((es ++ [e]).length - 100) := by
  rcases le_or_lt es.length 99 with hn | hn
  · have h1 : es.length - 100 = 0 := by omega
    rw [h1, List.drop_zero]
  · have hA : (es.drop (es.length - 100)).length = 100 := by
      rw [List.length_drop]
      omega
    have h1 : (es.drop (es.length - 100) ++ [e]).length - 100 = 1 := by
      simp [hA]
    have h2 : (es ++ [e]).length - 100 = (es.length - 100) + 1 := by
      simp
      omega
    rw [h1, h2,
      List.drop_append_of_le_length (by rw [hA]; omega),
      List.drop_append_of_le_length (by omega),
      List.drop_drop, Nat.add_comm]

lemma recordMany_history (d : String) (es : List HistoryEntry) :
    (read_last_state (recordMany emptyStore d es) d).history =
      es.drop (es.length - 100) := by
  induction es using List.reverseRecOn with
  | nil => simp [recordMany, read_last_state, emptyStore]
  | append_singleton es e ih =>
    have hfold : recordMany emptyStore d (es ++ [e]) =
        update_state (recordMany emptyStore d es) d e.T e.P e.CPU e.risk := by
      simp [recordMany, List.foldl_append]
    have he : (⟨e.T, e.P, e.CPU, e.risk⟩ : HistoryEntry) = e := rfl
    rw [hfold, read_update_same_history, he, ih, drop_cap_append]

/-! ### Numbered-line machinery for the plan text -/

/-- Whether a line starts with a decimal digit (the shape of the numbered
step lines; no other plan line starts with a digit). -/
def firstDigit (l : String) : Bool :=
  match l.data with
  | [] => false
  | c :: _ => c.isDigit

lemma fd_header (x : String) : firstDigit ("# Repair Plan for " ++ x) = false := rfl

lemma fd_risk_line (a b : String) :
    firstDigit ("Risk: " ++ a ++ " | Failure modes: " ++ b) = false := rfl

lemma fd_dash (t s r : String) :
    firstDigit ("- " ++ t ++ ": " ++ s ++ r) = false := rfl

lemma fd_eta (x : String) : firstDigit ("## ETA (hours)\n" ++ x) = false := rfl

lemma countP_plan_ev (evidence : List Doc) :
    (plan_evidence_lines evidence).countP firstDigit = 0 := by
  rw [List.countP_eq_zero]
  intro l hl
  simp only [plan_evidence_lines, List.mem_map] at hl
  obtain ⟨p, _, rfl⟩ := hl
  simp [fd_dash]

/-! ### Concrete instruments for witnesses and counterexamples -/

/-- A rendering oracle that renders every float as the empty string. -/
def fmt0 : Fmt := ⟨fun _ => "", fun _ => ""⟩

/-- A search oracle returning no documents. -/
def retr0 : String → ℕ → List RawDoc := fun _ _ => []

/-- A raw search result with no title and no source. -/
def rawd : RawDoc := ⟨none, some "abc", none, none, none⟩

/-- A search oracle returning exactly `rawd`. -/
def retrA : String → ℕ → List RawDoc := fun _ _ => [rawd]

/-- A well-formed evidence document for the rendering-agreement witness. -/
def docW : Doc := ⟨"t", "s", "x", 1⟩

/-- 101 distinct-headed history entries: one marked entry followed by 100
identical ones. -/
def EntrySeq : List HistoryEntry := ⟨1, 0, 0, 0⟩ :: List.replicate 100 ⟨0, 0, 0, 0⟩

lemma run_modes_eq (fmt : Fmt) (retr : String → ℕ → List RawDoc)
    (did : String) (T P CPU : ℚ) (topK : ℕ) (thr : ℚ) (s : Store) :
    (runRes (run_coordinator fmt retr
        ⟨some did, some T, some P, some CPU, some topK, some thr⟩ s)).map
        RunResult.failure_modes =
      some ["overheating", "bearing wear", "misalignment"] := rfl

lemma run_low_risk_indep (fmt : Fmt) (retr retr2 : String → ℕ → List RawDoc)
    (did : String) (T P CPU : ℚ) (topK : ℕ) (thr : ℚ) (s : Store)
    (h : ¬ (compute_simple_risk T P CPU ≥ thr)) :
    run_coordinator fmt retr
        ⟨some did, some T, some P, some CPU, some topK, some thr⟩ s =
      run_coordinator fmt retr2
        ⟨some did, some T, some P, some CPU, some topK, some thr⟩ s := by
  simp only [run_coordinator, predict_failure_risk, Option.getD_some]
  simp only [if_neg h]

/-! ### Claims -/

/-- Claim C6: for every input triple, `compute_simple_risk` lies in the closed
interval `[0, 1]`, and the scorer is deterministic and independent of the
device state store (the risk reported by `predict_failure_risk` does not
depend on the store contents). -/
theorem C6_thm : ∀ T P CPU : ℚ,
    0 ≤ compute_simple_risk T P CPU ∧ compute_simple_risk T P CPU ≤ 1 ∧
    compute_simple_risk T P CPU = compute_simple_risk T P CPU ∧
    (∀ (fmt : Fmt) (s s2 : Store) (d : String),
      (predict_failure_risk fmt s d T P CPU).2.risk =
        (predict_failure_risk fmt s2 d T P CPU).2.risk) := by
  intro T P CPU
  refine ⟨?_, ?_, rfl, fun _ _ _ _ => rfl⟩
  · rw [compute_simple_risk_eq]
    apply round2_nonneg
    exact le_min (by norm_num) (le_trans (by norm_num) (le_max_left 0.0 _))
  · rw [compute_simple_risk_eq]
    apply round2_le_one
    exact le_trans (min_le_left _ _) (by norm_num)

/-- Claim C7 counterexample: the claim asserts `score(92, 8.2, 88) = 0.9`,
but the CPU contribution requires `cpuUsage > 90` and `88 > 90` is false, so
the code computes `0.4 + 0.3 = 0.7`. -/
theorem C7_counterexample :
    compute_simple_risk 92 8.2 88 = 0.7 ∧ compute_simple_risk 92 8.2 88 ≠ 0.9 := by
  refine ⟨csr_92_82_88, ?_⟩
  rw [csr_92_82_88]
  norm_num

/-- Claim C7 (amended): the threshold comparisons are strict and additive
with weights 0.4/0.3/0.2: `score(85,0,0) = 0`, `score(85.01,0,0) = 0.4`,
`score(92,8.2,88) = 0.7` (the CPU term does not fire at 88), and all three
contributions sum to `0.9` once the CPU reading exceeds 90, e.g.
`score(92,8.2,91) = 0.9`. -/
theorem C7_thm :
    compute_simple_risk 85 0 0 = 0 ∧ compute_simple_risk 85.01 0 0 = 0.4 ∧
    compute_simple_risk 92 8.2 88 = 0.7 ∧ compute_simple_risk 92 8.2 91 = 0.9 :=
  ⟨csr_85_0_0, csr_8501_0_0, csr_92_82_88, csr_92_82_91⟩

/-- Claim C4: the Device Record invariant — `len(history) ≤ 100`, and
`lastRisk` equals the risk of the last history entry (0 when empty) — holds
in the empty store and is preserved by `update_state` (recordReading) and by
`read_last_state` (readLast, whose returned record always satisfies it). -/
theorem C4_thm :
    StoreInv emptyStore ∧
    (∀ (s : Store) (d : String) (T P CPU risk : ℚ),
      StoreInv s → StoreInv (update_state s d T P CPU risk)) ∧
    (∀ (s : Store) (d : String), StoreInv s → DevInv (read_last_state s d)) :=
  ⟨StoreInv_empty,
   fun s d T P CPU risk hs => StoreInv_update s hs d T P CPU risk,
   fun s d hs => DevInv_read s hs d⟩

/-- Claim C4 witness: the invariant machinery applied at a concrete store. -/
theorem C4_witness :
    DevInv (read_last_state (update_state emptyStore "pump-17" 92 8.2 88 0.7) "pump-17") :=
  C4_thm.2.2 _ "pump-17"
    (C4_thm.2.1 emptyStore "pump-17" 92 8.2 88 0.7 C4_thm.1)

/-- Claim C5: starting from the empty store, recording 101 entries for one
device leaves exactly the 100 most recent entries, in insertion order
(`es.drop 1`); the first entry recorded is gone (provided it does not recur
among the later entries). -/
theorem C5_thm (d : String) (es : List HistoryEntry) (e0 : HistoryEntry)
    (h : es.length = 101) (_h0 : es.head? = some e0) (h1 : e0 ∉ es.drop 1) :
    (read_last_state (recordMany emptyStore d es) d).history = es.drop 1 ∧
    (read_last_state (recordMany emptyStore d es) d).history.length = 100 ∧
    e0 ∉ (read_last_state (recordMany emptyStore d es) d).history := by
  have hh := recordMany_history d es
  rw [h, show (101 : ℕ) - 100 = 1 from rfl] at hh
  refine ⟨hh, ?_, ?_⟩
  · rw [hh, List.length_drop, h]
  · rw [hh]
    exact h1

/-- Claim C5 witness: a concrete run of 101 recordings. -/
theorem C5_witness :
    (read_last_state (recordMany emptyStore "pump-17" EntrySeq) "pump-17").history =
      EntrySeq.drop 1 ∧
    (read_last_state (recordMany emptyStore "pump-17" EntrySeq) "pump-17").history.length = 100 ∧
    (⟨1, 0, 0, 0⟩ : HistoryEntry) ∉
      (read_last_state (recordMany emptyStore "pump-17" EntrySeq) "pump-17").history :=
  C5_thm "pump-17" EntrySeq ⟨1, 0, 0, 0⟩ (by simp [EntrySeq]) rfl
    (by simp [EntrySeq, List.mem_replicate])

/-- Claim C1 counterexample: with `alert_threshold = 0.5` and readings giving
risk `0.6`, the claim demands `TRIGGERED` (risk ≥ threshold), yet the run's
alert is `NO_ALERT`, because `send_alert` compares against a hard-coded `0.7`
and `run_coordinator` never passes the event threshold to it. -/
theorem C1_counterexample :
    compute_simple_risk 90 0 95 = 0.6 ∧
    (0.5 : ℚ) ≤ compute_simple_risk 90 0 95 ∧
    (runRes (run_coordinator fmt0 retr0
        ⟨some "d", some 90, some 0, some 95, some 3, some 0.5⟩ emptyStore)).map
      (fun r => r.alert.alert) = some "NO_ALERT" := by
  refine ⟨csr_90_0_95, ?_, ?_⟩
  · rw [csr_90_0_95]
    norm_num
  · rw [run_alert_eq, csr_90_0_95]
    simp only [send_alert]
    rw [if_neg (by norm_num : ¬ ((0.6:ℚ) ≥ 0.7))]

/-- Claim C1 (amended): the alert evaluation of a coordinator run returns
`TRIGGERED` iff `risk ≥ 0.7`, where `0.7` is a constant hard-coded in
`send_alert`; the event's `alert_threshold` (a binder below that never
appears on the right-hand sides) does not influence the alert status. -/
theorem C1_thm (fmt : Fmt) (retr : String → ℕ → List RawDoc) (did : String)
    (T P CPU : ℚ) (topK : ℕ) (thr : ℚ) (s : Store) :
    ((runRes (run_coordinator fmt retr
        ⟨some did, some T, some P, some CPU, some topK, some thr⟩ s)).map
      (fun r => r.alert.alert) = some "TRIGGERED" ↔
        (0.7:ℚ) ≤ compute_simple_risk T P CPU) ∧
    ((runRes (run_coordinator fmt retr
        ⟨some did, some T, some P, some CPU, some topK, some thr⟩ s)).map
      (fun r => r.alert.alert) = some "NO_ALERT" ↔
        compute_simple_risk T P CPU < 0.7) := by
  simp only [run_alert_eq, send_alert]
  by_cases h : compute_simple_risk T P CPU ≥ 0.7
  · rw [if_pos h]
    exact ⟨iff_of_true rfl h, iff_of_false (by decide) (not_lt.mpr h)⟩
  · rw [if_neg h]
    exact ⟨iff_of_false (by decide) h, iff_of_true rfl (lt_of_not_ge h)⟩

/-- Claim C3: in a coordinator run, evidence retrieval is invoked iff the
computed risk reaches the run's alert threshold: at or above it the run's
evidence is exactly what `retrieve_docs` extracts from the oracle's results
for the coordinator's query, and below it the evidence is empty, the Plan
Composer runs on the empty evidence sequence, the plan renders the fixed
placeholder line, and the whole run is independent of the retrieval oracle. -/
theorem C3_thm (fmt : Fmt) (retr retr2 : String → ℕ → List RawDoc)
    (did : String) (T P CPU : ℚ) (topK : ℕ) (thr : ℚ) (s : Store) :
    (thr ≤ compute_simple_risk T P CPU →
      (runRes (run_coordinator fmt retr
          ⟨some did, some T, some P, some CPU, some topK, some thr⟩ s)).map
        RunResult.evidence =
        some (retrieve_docs (retr (build_query fmt
          ["overheating", "bearing wear", "misalignment"] P T) topK))) ∧
    (compute_simple_risk T P CPU < thr →
      (runRes (run_coordinator fmt retr
          ⟨some did, some T, some P, some CPU, some topK, some thr⟩ s)).map
        RunResult.evidence = some [] ∧
      (runRes (run_coordinator fmt retr
          ⟨some did, some T, some P, some CPU, some topK, some thr⟩ s)).map
        RunResult.plan_text =
        some (plan_repair_workflow fmt did (compute_simple_risk T P CPU)
          ["overheating", "bearing wear", "misalignment"] []) ∧
      "- No external evidence referenced in this run." ∈
        plan_lines fmt did (compute_simple_risk T P CPU)
          ["overheating", "bearing wear", "misalignment"] [] ∧
      run_coordinator fmt retr
          ⟨some did, some T, some P, some CPU, some topK, some thr⟩ s =
        run_coordinator fmt retr2
          ⟨some did, some T, some P, some CPU, some topK, some thr⟩ s) := by
  constructor
  · intro h
    rw [run_evidence_eq, if_pos h]
  · intro h
    have hn : ¬ (compute_simple_risk T P CPU ≥ thr) := not_le.mpr h
    refine ⟨?_, ?_, ?_, ?_⟩
    · rw [run_evidence_eq, if_neg hn]
    · rw [run_plan_eq, if_neg hn]
    · simp [plan_lines, plan_evidence_lines]
    · exact run_low_risk_indep fmt retr retr2 did T P CPU topK thr s hn

/-- Claim C3 witness: both branches at concrete events — scenario A
(risk 0.9 ≥ 0.7, retrieval consulted) and scenario B (risk 0 < 0.7,
empty evidence, placeholder rendered, oracle irrelevant). -/
theorem C3_witness :
    ((runRes (run_coordinator fmt0 retrA
        ⟨some "pump-17", some 92, some 8.2, some 91, some 3, some 0.7⟩ emptyStore)).map
      RunResult.evidence =
      some (retrieve_docs (retrA (build_query fmt0
        ["overheating", "bearing wear", "misalignment"] 8.2 92) 3))) ∧
    ((runRes (run_coordinator fmt0 retrA
        ⟨some "pump-1", some 50, some 2, some 10, some 3, some 0.7⟩ emptyStore)).map
      RunResult.evidence = some [] ∧
    (runRes (run_coordinator fmt0 retrA
        ⟨some "pump-1", some 50, some 2, some 10, some 3, some 0.7⟩ emptyStore)).map
      RunResult.plan_text =
      some (plan_repair_workflow fmt0 "pump-1" (compute_simple_risk 50 2 10)
        ["overheating", "bearing wear", "misalignment"] []) ∧
    "- No external evidence referenced in this run." ∈
      plan_lines fmt0 "pump-1" (compute_simple_risk 50 2 10)
        ["overheating", "bearing wear", "misalignment"] [] ∧
    run_coordinator fmt0 retrA
        ⟨some "pump-1", some 50, some 2, some 10, some 3, some 0.7⟩ emptyStore =
      run_coordinator fmt0 retr0
        ⟨some "pump-1", some 50, some 2, some 10, some 3, some 0.7⟩ emptyStore) :=
  ⟨(C3_thm fmt0 retrA retr0 "pump-17" 92 8.2 91 3 0.7 emptyStore).1
      (by rw [csr_92_82_91]; norm_num),
   (C3_thm fmt0 retrA retr0 "pump-1" 50 2 10 3 0.7 emptyStore).2
      (by rw [csr_50_2_10]; norm_num)⟩

/-- Claim C10: if the event is missing any of the required keys `deviceId`,
`Temperature`, `Pressure` or `CPU_Usage`, the coordinator run fails with a
`KeyError` and the device state store is left exactly as it was. -/
theorem C10_thm (fmt : Fmt) (retr : String → ℕ → List RawDoc)
    (event : Event) (s : Store)
    (h : event.deviceId = none ∨ event.Temperature = none ∨
      event.Pressure = none ∨ event.CPU_Usage = none) :
    (run_coordinator fmt retr event s).1 = s ∧
    ∃ msg, (run_coordinator fmt retr event s).2 = Except.error msg := by
  obtain ⟨did, T, P, C, k, th⟩ := event
  rcases did with _ | did
  · exact ⟨rfl, "KeyError: deviceId", rfl⟩
  rcases T with _ | T
  · exact ⟨rfl, "KeyError: Temperature", rfl⟩
  rcases P with _ | P
  · exact ⟨rfl, "KeyError: Pressure", rfl⟩
  rcases C with _ | C
  · exact ⟨rfl, "KeyError: CPU_Usage", rfl⟩
  · simp at h

/-- Claim C10 witness: an event missing `Temperature` errors out and leaves
the empty store untouched. -/
theorem C10_witness :
    (run_coordinator fmt0 retr0
        ⟨some "d", none, some 1, some 1, some 3, some 0.7⟩ emptyStore).1 = emptyStore ∧
    ∃ msg, (run_coordinator fmt0 retr0
        ⟨some "d", none, some 1, some 1, some 3, some 0.7⟩ emptyStore).2 =
      Except.error msg :=
  C10_thm fmt0 retr0 _ emptyStore (Or.inr (Or.inl rfl))

/-- Claim C8: the ETA in the composed plan is `3.5` iff `risk ≥ 0.7` and
`2.0` otherwise; the plan always renders exactly this `planEta` value; and in
a coordinator run the risk fed to the plan is `compute_simple_risk` of the
readings alone, so the ETA never depends on the event's `alert_threshold`
(the binder `thr` below is absent from every right-hand side). -/
theorem C8_thm :
    (∀ risk : ℚ, (planEta risk = 3.5 ↔ (0.7:ℚ) ≤ risk) ∧
      (planEta risk = 2.0 ↔ risk < 0.7)) ∧
    (∀ (fmt : Fmt) (did : String) (risk : ℚ) (modes : List String)
        (evidence : List Doc),
      ("## ETA (hours)\n" ++ fmt.fRepr (planEta risk)) ∈
        plan_lines fmt did risk modes evidence) ∧
    (∀ (fmt : Fmt) (retr : String → ℕ → List RawDoc) (did : String)
        (T P CPU : ℚ) (topK : ℕ) (thr : ℚ) (s : Store) (r : RunResult),
      runRes (run_coordinator fmt retr
          ⟨some did, some T, some P, some CPU, some topK, some thr⟩ s) = some r →
        r.risk = compute_simple_risk T P CPU ∧
        r.plan_text = plan_repair_workflow fmt did (compute_simple_risk T P CPU)
          r.failure_modes r.evidence) := by
  refine ⟨?_, ?_, ?_⟩
  · intro risk
    unfold planEta
    by_cases h : risk ≥ 0.7
    · rw [if_pos h]
      exact ⟨iff_of_true rfl h, iff_of_false (by norm_num) (not_lt.mpr h)⟩
    · rw [if_neg h]
      exact ⟨iff_of_false (by norm_num) h, iff_of_true rfl (lt_of_not_ge h)⟩
  · intro fmt did risk modes evidence
    simp [plan_lines]
  · intro fmt retr did T P CPU topK thr s r hr
    have h1 := run_risk_eq fmt retr did T P CPU topK thr s
    have h2 := run_plan_eq fmt retr did T P CPU topK thr s
    have h3 := run_modes_eq fmt retr did T P CPU topK thr s
    have h4 := run_evidence_eq fmt retr did T P CPU topK thr s
    rw [hr] at h1 h2 h3 h4
    simp only [Option.map_some', Option.some.injEq] at h1 h2 h3 h4
    refine ⟨h1, ?_⟩
    rw [h2, h3, h4]

/-- Claim C8 witness: a concrete run whose risk — and hence ETA branch — is
determined by the readings alone. -/
theorem C8_witness :
    (runRes (run_coordinator fmt0 retr0
        ⟨some "pump-1", some 50, some 2, some 10, some 3, some 0.7⟩ emptyStore)).map
      RunResult.risk = some (compute_simple_risk 50 2 10) := by
  cases hr : runRes (run_coordinator fmt0 retr0
      ⟨some "pump-1", some 50, some 2, some 10, some 3, some 0.7⟩ emptyStore) with
  | none =>
    have h0 := run_risk_eq fmt0 retr0 "pump-1" 50 2 10 3 0.7 emptyStore
    rw [hr] at h0
    exact absurd h0 (by simp)
  | some r =>
    have := (C8_thm.2.2 fmt0 retr0 "pump-1" 50 2 10 3 0.7 emptyStore r hr).1
    simp [this]

/-- Claim C2 counterexample: the evidence list a coordinator run obtains from
a raw result with an empty title is rendered differently by the Coordinator
(`- : abc`) and by the Plan Composer (`- Doc 1: abc`), so the two
evidence-summary renderings are not consistent as claimed. -/
theorem C2_counterexample :
    (runRes (run_coordinator fmt0 retrA
        ⟨some "d", some 90, some 8, some 95, some 3, some 0.5⟩ emptyStore)).map
      RunResult.evidence = some (retrieve_docs [rawd]) ∧
    coord_evidence_lines (retrieve_docs [rawd]) ≠
      plan_evidence_lines (retrieve_docs [rawd]) := by
  constructor
  · rw [run_evidence_eq,
      if_pos (show compute_simple_risk 90 8 95 ≥ (0.5:ℚ) by
        rw [csr_90_8_95]; norm_num)]
    rfl
  · decide

/-- Claim C2 (amended): the Coordinator's and the Plan Composer's
evidence-summary renderings share the `- title: snippet [source]` line shape
with identical bracketed-source handling, but the Coordinator renders every
document with its raw title and untruncated snippet; the two agree exactly on
evidence lists of at most 3 documents whose titles are non-empty and whose
snippets are unchanged by 300-character truncation plus stripping. -/
theorem C2_thm (evidence : List Doc) (h3 : evidence.length ≤ 3)
    (hdocs : ∀ e ∈ evidence,
      e.title ≠ "" ∧ pyStrip (pySlice e.snippet 300) = e.snippet) :
    coord_evidence_lines evidence = plan_evidence_lines evidence := by
  rcases evidence with _ | ⟨a, _ | ⟨b, _ | ⟨c, _ | ⟨d, t⟩⟩⟩⟩
  · rfl
  · obtain ⟨ha1, ha2⟩ := hdocs a (by simp)
    simp [coord_evidence_lines, plan_evidence_lines, ha1, ha2]
  · obtain ⟨ha1, ha2⟩ := hdocs a (by simp)
    obtain ⟨hb1, hb2⟩ := hdocs b (by simp)
    simp [coord_evidence_lines, plan_evidence_lines, List.enum, List.enumFrom,
      ha1, ha2, hb1, hb2]
  · obtain ⟨ha1, ha2⟩ := hdocs a (by simp)
    obtain ⟨hb1, hb2⟩ := hdocs b (by simp)
    obtain ⟨hc1, hc2⟩ := hdocs c (by simp)
    simp [coord_evidence_lines, plan_evidence_lines, List.enum, List.enumFrom,
      ha1, ha2, hb1, hb2, hc1, hc2]
  · simp at h3

/-- Claim C2 witness: the two renderings agree on a concrete well-formed
single-document evidence list. -/
theorem C2_witness :
    coord_evidence_lines [docW] = plan_evidence_lines [docW] :=
  C2_thm [docW] (by simp)
    (by
      intro e he
      rw [List.mem_singleton] at he
      subst he
      exact ⟨by decide, by decide⟩)

/-- Claim C9: for every input, the plan contains the 8 numbered maintenance
steps consecutively and in their fixed order (`step_lines` occurs as a
contiguous block), these are the only numbered lines (exactly 8 lines start
with a digit), and the fixed rollback paragraph appears verbatim. -/
theorem C9_thm (fmt : Fmt) (did : String) (risk : ℚ) (modes : List String)
    (evidence : List Doc) :
    (∃ pre post, pre ++ step_lines ++ post =
      plan_lines fmt did risk modes evidence) ∧
    (plan_lines fmt did risk modes evidence).countP firstDigit = 8 ∧
    ("## Rollback\n" ++ rollback) ∈ plan_lines fmt did risk modes evidence := by
  refine ⟨⟨["# Repair Plan for " ++ did,
      "Risk: " ++ fmt.fRepr risk ++ " | Failure modes: " ++
        String.intercalate ", " modes,
      "## Evidence (summary)"] ++
       (match plan_evidence_lines evidence with
        | [] => ["- No external evidence referenced in this run."]
        | ls => ls) ++ ["## Steps"],
     ["## Parts/Materials"] ++ parts.map (fun p => "- " ++ p) ++
       ["## Safety"] ++ safety.map (fun s => "- " ++ s) ++
       ["## ETA (hours)\n" ++ fmt.fRepr (planEta risk),
        "## Rollback\n" ++ rollback], ?_⟩, ?_, ?_⟩
  · simp [plan_lines, List.append_assoc]
  · have hev : (match plan_evidence_lines evidence with
        | [] => ["- No external evidence referenced in this run."]
        | ls => ls).countP firstDigit = 0 := by
      rcases hpe : plan_evidence_lines evidence with _ | ⟨l, ls⟩
      · decide
      · have h0 := countP_plan_ev evidence
        rw [hpe] at h0
        simpa using h0
    have hsteps : step_lines.countP firstDigit = 8 := by decide
    have hparts : (parts.map (fun p => "- " ++ p)).countP firstDigit = 0 := by decide
    have hsafety : (safety.map (fun s => "- " ++ s)).countP firstDigit = 0 := by decide
    simp only [plan_lines, List.countP_append, List.countP_cons, List.countP_nil,
      hev, hsteps, hparts, hsafety, fd_header, fd_risk_line, fd_eta,
      show firstDigit "## Evidence (summary)" = false from by decide,
      show firstDigit "## Steps" = false from by decide,
      show firstDigit "## Parts/Materials" = false from by decide,
      show firstDigit "## Safety" = false from by decide,
      show firstDigit ("## Rollback\n" ++ rollback) = false from by decide]
    simp
  · simp [plan_lines]

end SmartMaintenance
